import Mathlib

/-!
Verification development for the EV charging-station dashboard
(`visualizations.js` + `index.html`).  The JavaScript data pipeline is
shallowly embedded: CSV rows become association lists of strings, the
JavaScript number produced by `parseFloat` is modelled as `Option ℚ`
(`none` models NaN; the rational idealisation of IEEE doubles is exact on
the decimal literals appearing in the code and data), and each
filter/aggregate step of the six chart functions is translated directly
from its source lines.
-/

namespace EVDash

/-- A JavaScript number as produced by `parseFloat`: `none` models NaN. -/
abbrev JNum := Option ℚ

/-- NaN test (`isNaN` in the source). -/
def jIsNaN (x : JNum) : Bool := x.isNone

/-- JavaScript `<` on numbers: any comparison with NaN is false. -/
def jlt (a b : JNum) : Bool :=
  match a, b with
  | some a, some b => decide (a < b)
  | _, _ => false

/-- JavaScript `<=` on numbers: any comparison with NaN is false. -/
def jle (a b : JNum) : Bool :=
  match a, b with
  | some a, some b => decide (a ≤ b)
  | _, _ => false

/-- JavaScript `>` on numbers: any comparison with NaN is false. -/
def jgt (a b : JNum) : Bool :=
  match a, b with
  | some a, some b => decide (b < a)
  | _, _ => false

/-- JavaScript `>=` on numbers: any comparison with NaN is false. -/
def jge (a b : JNum) : Bool :=
  match a, b with
  | some a, some b => decide (b ≤ a)
  | _, _ => false

/-- Longest leading run of decimal digits of a character list, as digit
values, together with the rest of the list. -/
def takeDigits : List Char → List ℕ × List Char
  | [] => ([], [])
  | c :: cs =>
    if c.isDigit then
      let (ds, rest) := takeDigits cs
      ((c.toNat - 48) :: ds, rest)
    else ([], c :: cs)

/-- Value of a digit list read most-significant first. -/
def natOfDigits (l : List ℕ) : ℕ := l.foldl (fun a d => 10 * a + d) 0

/-- The exact rational value of a decimal literal: integer numerator n
over 10 to the k (so 0.15 is dec 15 2).  Used both for parsed cell
values and for the decimal constants of the source predicates. -/
def dec (n : ℤ) (k : ℕ) : ℚ := Rat.divInt n ((10 ^ k : ℕ) : ℤ)

/-- Model of JavaScript `parseFloat` on the fragment relevant to this
code base: optional leading spaces, an optional sign, then the longest
prefix of the form `digits [. digits]`; trailing characters are ignored
and the absence of any digit yields NaN.  (Exponents and Infinity do not
occur in the data handled here.)  The value sign·(i + f/10^k) is built
as one exact fraction. -/
def parseFloat (s : String) : JNum :=
  let cs := s.toList.dropWhile (fun c => c = ' ')
  let signAndRest : ℤ × List Char :=
    match cs with
    | '-' :: t => (-1, t)
    | '+' :: t => (1, t)
    | t => (1, t)
  let (intDs, rest) := takeDigits signAndRest.2
  let fracDs : List ℕ :=
    match rest with
    | '.' :: t => (takeDigits t).1
    | _ => []
  if intDs = [] ∧ fracDs = [] then none
  else
    some (dec
      (signAndRest.1 *
        ((natOfDigits intDs * 10 ^ fracDs.length + natOfDigits fracDs : ℕ) : ℤ))
      fracDs.length)

/-- First-match lookup in an association list (JavaScript property read
on the row object built by d3.csvParse). -/
def lookupStr : List (String × String) → String → Option String
  | [], _ => none
  | (k, v) :: rest, key => if key = k then some v else lookupStr rest key

/-- A parsed CSV row as produced by `d3.csvParse`: an association list
from column name to cell text.  A missing key models JavaScript
`undefined`. -/
structure Row where
  fields : List (String × String)
deriving DecidableEq

/-- Property read `d[key]` on a row. -/
def Row.get (r : Row) (key : String) : Option String := lookupStr r.fields key

/-- The keys of a row, as `Object.keys`. -/
def Row.keys (r : Row) : List String := r.fields.map Prod.fst

/-- Application of `parseFloat` to a possibly-undefined field
(`parseFloat(undefined)` is NaN). -/
def parseFloatOpt (v : Option String) : JNum :=
  match v with
  | some s => parseFloat s
  | none => none

/-! ### loadData (visualizations.js lines 2-48) -/

/-- The three required column names checked by `loadData`. -/
def requiredFields : List String :=
  ["Cost (USD/kWh)", "Usage Stats (avg users/day)", "Is24Hours"]

/-- The ways `loadData` can throw: a non-ok fetch response, the
TypeError raised by `Object.keys(data[0])` on an empty parse result, or
the explicit missing-required-fields error. -/
inductive LoadError
  | httpError
  | emptyTypeError
  | missingFields (fs : List String)
deriving DecidableEq

/-- The function `loadData`, lines 2-48: throw on a non-ok response; read
`Object.keys(data[0])` (which throws a TypeError when the parse result
is empty); throw when any required field is absent; otherwise return the
parsed table itself (rows failing the numeric validation are only
logged, never removed). -/
def loadData (respOk : Bool) (rows : List Row) : Except LoadError (List Row) :=
  if !respOk then .error .httpError
  else
    match rows with
    | [] => .error .emptyTypeError
    | r :: _ =>
      let missing := requiredFields.filter (fun f => decide (f ∉ r.keys))
      if missing.isEmpty then .ok rows else .error (.missingFields missing)

/-- The `invalidData` diagnostic filter of `loadData` lines 33-37: rows
whose cost or usage is NaN, whose cost is not positive, or whose usage is
negative.  Its result is logged only. -/
def invalidData (rows : List Row) : List Row :=
  rows.filter (fun d =>
    let cost := parseFloatOpt (d.get "Cost (USD/kWh)")
    let usage := parseFloatOpt (d.get "Usage Stats (avg users/day)")
    jIsNaN cost || jIsNaN usage || jle cost (some 0) || jlt usage (some 0))

/-- Keys of the first parsed row (`Object.keys(data[0])`); the empty
list when there is no first row. -/
def headKeys (rows : List Row) : List String :=
  match rows with
  | [] => []
  | r :: _ => r.keys

/-! ### Shared aggregation helpers (d3.mean / d3.median / d3.quantile / d3.rollup) -/

/-- Model of `d3.mean`: ignores NaN entries; undefined (NaN) on an empty valid set. -/
def jmean (l : List JNum) : JNum :=
  let vs := l.filterMap id
  if vs.length = 0 then none else some (vs.sum / (vs.length : ℚ))

/-- Model of `d3.quantile` on an ascending-sorted list of valid numbers, with the
linear interpolation d3 uses. -/
def jquantileSorted (l : List ℚ) (p : ℚ) : JNum :=
  match l with
  | [] => none
  | _ =>
    let n := l.length
    let i : ℚ := ((n : ℚ) - 1) * p
    let i0 : ℕ := (Int.floor i).toNat
    let v0 := l.getD i0 0
    if i0 + 1 < n then some (v0 + (l.getD (i0 + 1) 0 - v0) * (i - (i0 : ℚ)))
    else some v0

/-- Model of `d3.median`: ignores NaN entries and interpolates the middle. -/
def jmedian (l : List JNum) : JNum :=
  jquantileSorted ((l.filterMap id).mergeSort (fun a b => decide (a ≤ b))) (1 / 2)

/-- First-occurrence key order of a grouping, as kept by the insertion-order
map that `d3.rollup` builds. -/
def rollupKeys {α κ : Type} [DecidableEq κ] (key : α → κ) (l : List α) : List κ :=
  l.foldl (fun ks a => if key a ∈ ks then ks else ks ++ [key a]) []

/-- Model of `d3.rollup`: group by a key (insertion order) and reduce each group. -/
def rollup {α κ β : Type} [DecidableEq κ] (key : α → κ) (agg : List α → β)
    (l : List α) : List (κ × β) :=
  (rollupKeys key l).map (fun k => (k, agg (l.filter (fun a => decide (key a = k)))))

/-! ### Trend chart (loadTrendChart, lines 145-391) -/

/-- The availability filter of the trend chart, lines 188-193: `all`
keeps everything, `24/7` requires the Is24Hours cell to be the string
True, `limited` requires it to be the string False, and any other
selection value keeps everything. -/
def trendPred (sel : String) (d : Row) : Bool :=
  if sel = "all" then true
  else if sel = "24/7" then decide (d.get "Is24Hours" = some "True")
  else if sel = "limited" then decide (d.get "Is24Hours" = some "False")
  else true

/-- The filtered data of the trend chart update, line 188. -/
def trendFilteredData (sel : String) (data : List Row) : List Row :=
  data.filter (trendPred sel)

/-! ### Charger type vs usage chart (createTypeUsageChart, lines 414-749) -/

/-- The mapped record built at lines 560-567. -/
structure TURow where
  charger_type : Option String
  usage : JNum
  is_high_power : Bool
  cost : JNum
  renewable : Option String
  hours : String
deriving DecidableEq

/-- Lines 560-567 of the source: the per-record projection. -/
def tuMapRow (d : Row) : TURow where
  charger_type := d.get "Charger Type"
  usage := parseFloatOpt (d.get "Usage Stats (avg users/day)")
  is_high_power := decide (d.get "IsHighPower" = some "True")
  cost := parseFloatOpt (d.get "Cost (USD/kWh)")
  renewable := d.get "Renewable Energy Source"
  hours := if d.get "Is24Hours" = some "True" then "24/7" else "Limited"

/-- The five selector values read at lines 553-557. -/
structure TUSel where
  type : String
  power : String
  cost : String
  renewable : String
  range : String
deriving DecidableEq

/-- Line 569: drop records whose usage is NaN or negative. -/
def tuBase (d : TURow) : Bool :=
  !(jIsNaN d.usage || jlt d.usage (some 0))

/-- Line 571: the charger-type dimension. -/
def tuTypePred (sel : String) (d : TURow) : Bool :=
  if sel ≠ "all" ∧ d.charger_type ≠ some sel then false else true

/-- Lines 573-576: the power-level dimension. -/
def tuPowerPred (sel : String) (d : TURow) : Bool :=
  if sel ≠ "all" then
    if sel = "high" ∧ ¬ d.is_high_power then false
    else if sel = "standard" ∧ d.is_high_power then false
    else true
  else true

/-- Lines 578-582: the cost-range dimension. -/
def tuCostPred (sel : String) (d : TURow) : Bool :=
  if sel ≠ "all" then
    if sel = "low" ∧ jge d.cost (some (dec 15 2)) then false
    else if sel = "medium" ∧ (jlt d.cost (some (dec 15 2)) || jgt d.cost (some (dec 30 2))) then false
    else if sel = "high" ∧ jle d.cost (some (dec 30 2)) then false
    else true
  else true

/-- Lines 584-587: the renewable-energy dimension. -/
def tuRenewPred (sel : String) (d : TURow) : Bool :=
  if sel ≠ "all" then
    if sel = "yes" ∧ d.renewable ≠ some "Yes" then false
    else if sel = "no" ∧ d.renewable = some "Yes" then false
    else true
  else true

/-- Lines 589-598: the usage-range dimension (switch with default true). -/
def tuRangePred (sel : String) (d : TURow) : Bool :=
  if sel = "low" then jle d.usage (some 10)
  else if sel = "medium" then jgt d.usage (some 10) && jle d.usage (some 20)
  else if sel = "high" then jgt d.usage (some 20)
  else true

/-- The combined filter body of lines 568-599; its early returns compose
as the conjunction of the base check and the five dimension predicates. -/
def tuFilterPred (s : TUSel) (d : TURow) : Bool :=
  tuBase d && tuTypePred s.type d && tuPowerPred s.power d &&
    tuCostPred s.cost d && tuRenewPred s.renewable d && tuRangePred s.range d

/-- The `processData` function of createTypeUsageChart, lines 552-600. -/
def tuProcessData (s : TUSel) (data : List Row) : List TURow :=
  (data.map tuMapRow).filter (tuFilterPred s)

/-- The five dimension predicates of the type-usage chart, in source order. -/
def tuDimPreds (s : TUSel) : List (TURow → Bool) :=
  [tuTypePred s.type, tuPowerPred s.power, tuCostPred s.cost,
   tuRenewPred s.renewable, tuRangePred s.range]

/-- Per-type usage statistics of lines 698-705. -/
def tuStats (processed : List TURow) : List (Option String × (JNum × JNum × ℕ)) :=
  rollup (fun d => d.charger_type)
    (fun v => (jmean (v.map (fun d => d.usage)), jmedian (v.map (fun d => d.usage)), v.length))
    processed

/-- The outcome of the type-usage updateChart, lines 603-730: the chart is
always embedded, the statistics block is added only for a non-empty
processed set (line 697). -/
structure TUDisplay where
  chartData : List TURow
  stats : Option (List (Option String × (JNum × JNum × ℕ)))
deriving DecidableEq

/-- The `updateChart` function of createTypeUsageChart. -/
def tuUpdateChart (s : TUSel) (data : List Row) : TUDisplay :=
  let processed := tuProcessData s data
  ⟨processed, if processed.length > 0 then some (tuStats processed) else none⟩

/-! ### Cost vs rating chart (createCostRatingChart, lines 752-1025) -/

/-- The mapped record built at lines 833-838. -/
structure CRRow where
  charger_type : Option String
  cost : JNum
  rating : JNum
  is24Hours : Bool
deriving DecidableEq

/-- Lines 833-838 of the source: the per-record projection. -/
def crMapRow (d : Row) : CRRow where
  charger_type := d.get "Charger Type"
  cost := parseFloatOpt (d.get "Cost (USD/kWh)")
  rating := parseFloatOpt (d.get "Reviews (Rating)")
  is24Hours := decide (d.get "Is24Hours" = some "True")

/-- Line 840: drop records whose cost or rating is NaN, whose cost is not
positive, or whose rating is negative. -/
def crBase (d : CRRow) : Bool :=
  !(jIsNaN d.cost || jIsNaN d.rating || jle d.cost (some 0) || jlt d.rating (some 0))

/-- Line 842: the charger-type dimension. -/
def crTypePred (sel : String) (d : CRRow) : Bool :=
  if sel ≠ "all" ∧ d.charger_type ≠ some sel then false else true

/-- Lines 844-845: the availability dimension; `24h` excludes records
without Is24Hours True, and `limited` excludes exactly the records with
Is24Hours True. -/
def crAvailPred (sel : String) (d : CRRow) : Bool :=
  if sel = "24h" ∧ ¬ d.is24Hours then false
  else if sel = "limited" ∧ d.is24Hours then false
  else true

/-- The combined filter body of lines 839-848. -/
def crFilterPred (selType selAvail : String) (d : CRRow) : Bool :=
  crBase d && crTypePred selType d && crAvailPred selAvail d

/-- The `processData` function of createCostRatingChart, lines 828-849. -/
def crProcessData (selType selAvail : String) (data : List Row) : List CRRow :=
  (data.map crMapRow).filter (crFilterPred selType selAvail)

/-- The two dimension predicates of the cost-rating chart, in source order. -/
def crDimPreds (selType selAvail : String) : List (CRRow → Bool) :=
  [crTypePred selType, crAvailPred selAvail]

/-- Per-type cost and rating statistics of lines 967-975.  (The source
also calls d3.correlation there, a function absent from the loaded d3
library; no claim depends on that value.) -/
def crStats (processed : List CRRow) : List (Option String × (JNum × JNum × ℕ)) :=
  rollup (fun d => d.charger_type)
    (fun v => (jmean (v.map (fun d => d.cost)), jmean (v.map (fun d => d.rating)), v.length))
    processed

/-- Outcome of the cost-rating updateChart, lines 852-1000: on an empty
processed set the container content is replaced by the no-data message and
the function returns before any statistic is computed (lines 855-858). -/
inductive CRDisplay
  | noData (msg : String)
  | chart (d : List CRRow) (stats : List (Option String × (JNum × JNum × ℕ)))
deriving DecidableEq

/-- The `updateChart` function of createCostRatingChart. -/
def crUpdateChart (selType selAvail : String) (data : List Row) : CRDisplay :=
  let processed := crProcessData selType selAvail data
  if processed.length = 0 then
    .noData "No data available for selected filters"
  else
    .chart processed (crStats processed)

/-! ### Boxplot comparison (createBoxplotComparison, lines 1028-1238) -/

/-- Numeric maintenance score, lines 1066-1074: Monthly 3, Quarterly 2,
Annually 1, anything else (including undefined) falls back to 0. -/
def maintScores (v : Option String) : ℚ :=
  match v with
  | some "Monthly" => 3
  | some "Quarterly" => 2
  | some "Annually" => 1
  | _ => 0

/-- A selectable boxplot feature, lines 1058-1076: a selector value, the
column it reads, and an optional transform into a number. -/
structure BPFeature where
  value : String
  field : String
  transform : Option (Option String → ℚ)

/-- The maintenance feature entry of lines 1062-1075. -/
def bpMaintFeature : BPFeature :=
  ⟨"maintenance", "Maintenance Frequency", some maintScores⟩

/-- The feature list of lines 1058-1076. -/
def bpFeatures : List BPFeature :=
  [⟨"rating", "Reviews (Rating)", none⟩,
   ⟨"usage", "Usage Stats (avg users/day)", none⟩,
   ⟨"capacity", "Charging Capacity (kW)", none⟩,
   bpMaintFeature]

/-- The `features.find` lookup at line 1090. -/
def bpFindFeature (sel : String) : Option BPFeature :=
  bpFeatures.find? (fun f => f.value = sel)

/-- The mapped record built at lines 1094-1103. -/
structure BPRow where
  type : Option String
  value : JNum
  costRange : Option String
  operator : Option String
  renewable : Option String
  connectors : Option String
deriving DecidableEq

/-- Lines 1094-1103: the per-record projection; a transform always yields
a number, otherwise the field goes through parseFloat. -/
def bpMapRow (f : BPFeature) (d : Row) : BPRow where
  type := d.get "Charger Type"
  value :=
    match f.transform with
    | some t => some (t (d.get f.field))
    | none => parseFloatOpt (d.get f.field)
  costRange := d.get "Cost_Range"
  operator := d.get "Station Operator"
  renewable := d.get "Renewable Energy Source"
  connectors := d.get "Connector Types"

/-- The prepared data of lines 1093-1104: map then drop NaN values. -/
def bpProcessData (f : BPFeature) (data : List Row) : List BPRow :=
  (data.map (bpMapRow f)).filter (fun d => !(jIsNaN d.value))

/-- Sorted copy of the group values, as `v.map(...).sort(d3.ascending)`. -/
def bpSortedValues (v : List BPRow) : List ℚ :=
  ((v.map (fun d => d.value)).filterMap id).mergeSort (fun a b => decide (a ≤ b))

/-- The nested statistics rollup of lines 1182-1192: group by charger type
then cost range; mean, median, quartile bounds and count per group. -/
def bpStats (processed : List BPRow) :
    List (Option String × List (Option String × (JNum × JNum × JNum × JNum × ℕ))) :=
  rollup (fun d => d.type)
    (fun v =>
      rollup (fun d => d.costRange)
        (fun w =>
          (jmean (w.map (fun d => d.value)),
           jmedian (w.map (fun d => d.value)),
           jquantileSorted (bpSortedValues w) (25 / 100),
           jquantileSorted (bpSortedValues w) (75 / 100),
           w.length))
        v)
    processed

/-! ### Operator analysis (createOperatorAnalysis, lines 1241-1390) -/

/-- The mapped record built at lines 1255-1262. -/
structure OPRow where
  operator : Option String
  rating : JNum
  usage : JNum
  renewable : Option String
  chargerType : Option String
  capacity : JNum
deriving DecidableEq

/-- Lines 1255-1262 of the source: the per-record projection. -/
def opMapRow (d : Row) : OPRow where
  operator := d.get "Station Operator"
  rating := parseFloatOpt (d.get "Reviews (Rating)")
  usage := parseFloatOpt (d.get "Usage Stats (avg users/day)")
  renewable := d.get "Renewable Energy Source"
  chargerType := d.get "Charger Type"
  capacity := parseFloatOpt (d.get "Charging Capacity (kW)")

/-- The prepared data of lines 1254-1263: map then keep only records whose
rating, usage and capacity all parsed to valid numbers. -/
def opProcessData (data : List Row) : List OPRow :=
  (data.map opMapRow).filter
    (fun d => !(jIsNaN d.rating) && !(jIsNaN d.usage) && !(jIsNaN d.capacity))

/-! ### Map marker colors (createMap, lines 82-96) -/

/-- The color object literal of lines 83-87. -/
def markerColorMap : List (String × String) :=
  [("L1", "#FF6B6B"), ("L2", "#4ECDC4"), ("DC", "#45B7D1")]

/-- Lines 83-87: the marker fill color; an unmapped or undefined charger
type falls back to the default through the or-else at line 87. -/
def markerColor (chargerType : Option String) : String :=
  (match chargerType with
   | none => none
   | some t => lookupStr markerColorMap t).getD "#999"

/-- The Vega-Lite color scale domain shared by the bar, scatter and
boxplot specs (lines 654, 914, 1140). -/
def vegaColorDomain : List String := ["L1", "L2", "DC"]

/-- The Vega-Lite color scale range shared by the bar, scatter and
boxplot specs (lines 655, 915, 1141). -/
def vegaColorRange : List String := ["#91bad6", "#528AAE", "#1E3f66"]

/-- Modelled from the spec: the repository only supplies the domain and
range of the ordinal color scale, and the charting library (documented
ordinal-scale behavior) maps the i-th domain value to the i-th range
color and assigns every out-of-domain value a default color. -/
def ordinalColor : List String → List String → String → String → String
  | [], _, dflt, _ => dflt
  | _ :: _, [], dflt, _ => dflt
  | dv :: ds, c :: cs, dflt, v => if v = dv then c else ordinalColor ds cs dflt v

/-! ### Initialization, error isolation and fetches
    (initialize, lines 1393-1411, and the seven chart functions) -/

/-- The seven chart-creation functions invoked from `initialize`. -/
inductive Chart
  | map
  | trend
  | heatmap
  | costRating
  | typeUsage
  | boxplot
  | operator
deriving DecidableEq

/-- The container element id each chart function writes to. -/
def containerId : Chart → String
  | .map => "map-viz"
  | .trend => "trend-viz"
  | .heatmap => "heatmap-viz"
  | .costRating => "cost-rating-viz"
  | .typeUsage => "type-usage-viz"
  | .boxplot => "boxplot-viz"
  | .operator => "operator-viz"

/-- The element ids declared in index.html (there is no operator-viz). -/
def indexIds : List String :=
  ["introduction", "data-description", "visualizations", "map-viz", "trend-viz",
   "heatmap-viz", "boxplot-viz", "type-usage-viz", "cost-rating-viz",
   "summary", "conclusion", "work cited"]

/-- What one chart-creation call did: the element ids whose content it
replaced, and whether an exception escaped the call. -/
structure ChartRun where
  writes : List String
  escaped : Bool
deriving DecidableEq

/-- One chart-creation call.  Every chart body renders into (or first
looks up) its own container and any body error reaches the catch block;
the catch block writes the inline error message into
`document.getElementById(id).innerHTML`, which itself throws when the
container id is absent from the page.  `fails` injects an arbitrary body
failure. -/
def runChart (present : List String) (fails : Chart → Bool) (c : Chart) : ChartRun :=
  let id := containerId c
  if fails c ∨ id ∉ present then
    if id ∈ present then ⟨[id], false⟩ else ⟨[], true⟩
  else ⟨[id], false⟩

/-- The order in which `initialize` (lines 1393-1411) invokes the chart
functions. -/
def chartOrder : List Chart :=
  [.map, .trend, .heatmap, .costRating, .typeUsage, .boxplot, .operator]

/-- Sequential execution of `initialize`: each chart is run in order; an
exception escaping a chart call is caught by the try/catch of
`initialize` itself, so no later chart function is invoked. -/
def runSeq (present : List String) (fails : Chart → Bool) : List Chart → List (Chart × ChartRun)
  | [] => []
  | c :: cs =>
    let r := runChart present fails c
    if r.escaped then [(c, r)] else (c, r) :: runSeq present fails cs

/-- Network and render events of an `initialize` run, in program order. -/
inductive Ev
  | fetchCSV
  | fetchJSON
  | render (c : Chart)
deriving DecidableEq

/-- The number of CSV fetches performed inside each chart-creation
function: only loadTrendChart calls loadData (line 147); createHeatmap
fetches a JSON spec (line 396); the remaining charts reuse the table
fetched once by initialize (line 1395). -/
def chartCSVFetches : Chart → ℕ
  | .trend => 1
  | _ => 0

/-- The event trace of a successful `initialize` run, lines 1393-1406:
one awaited CSV fetch in initialize, the map render, the CSV fetch
awaited inside loadTrendChart, the trend render, the JSON spec fetch,
then the remaining renders. -/
def initTrace : List Ev :=
  [.fetchCSV, .render .map, .fetchCSV, .render .trend, .fetchJSON, .render .heatmap,
   .render .costRating, .render .typeUsage, .render .boxplot, .render .operator]

/-! ### The in-memory table across filter interactions (frame model) -/

/-- A user interaction with one of the filter selectors. -/
inductive UIEvent
  | trendFilter (sel : String)
  | tuFilter (s : TUSel)
  | crFilter (selType selAvail : String)
  | bpFeature (sel : String)

/-- The page state: the table parsed once by loadData, and the processed
view each chart last rendered. -/
structure DashState where
  table : List Row
  trendView : List Row
  tuView : List TURow
  crView : List CRRow
  bpView : List BPRow

/-- One selector-change handler: recompute the processed view of the
affected chart from the stored table.  No handler writes to the table;
an unknown boxplot feature value makes `features.find` return undefined
and the handler throw before rendering, leaving the old view. -/
def step (st : DashState) : UIEvent → DashState
  | .trendFilter sel => { st with trendView := trendFilteredData sel st.table }
  | .tuFilter s => { st with tuView := tuProcessData s st.table }
  | .crFilter selType selAvail => { st with crView := crProcessData selType selAvail st.table }
  | .bpFeature sel =>
    match bpFindFeature sel with
    | some f => { st with bpView := bpProcessData f st.table }
    | none => st

/-! ### General list lemmas used below -/

/-- Sequential application of a list of filter predicates. -/
def applyFilters {α : Type} (ps : List (α → Bool)) (xs : List α) : List α :=
  ps.foldl (fun acc p => acc.filter p) xs

theorem filter_swap {α : Type} (p q : α → Bool) (l : List α) :
    (l.filter p).filter q = (l.filter q).filter p := by
  induction l with
  | nil => rfl
  | cons a l ih =>
    by_cases hp : p a <;> by_cases hq : q a <;>
      simp [List.filter_cons, hp, hq, ih]

theorem all_of_perm {α : Type} {l₁ l₂ : List α} (h : l₁.Perm l₂) (f : α → Bool) :
    l₁.all f = l₂.all f := by
  induction h with
  | nil => rfl
  | cons x _ ih => simp [List.all_cons, ih]
  | swap x y l =>
    simp only [List.all_cons, ← Bool.and_assoc, Bool.and_comm (f y) (f x)]
  | trans _ _ ih₁ ih₂ => rw [ih₁, ih₂]

theorem applyFilters_eq_filter_all {α : Type} (ps : List (α → Bool)) (xs : List α) :
    applyFilters ps xs = xs.filter (fun x => ps.all (fun p => p x)) := by
  induction ps generalizing xs with
  | nil => simp [applyFilters]
  | cons p ps ih =>
    simp only [applyFilters, List.foldl_cons]
    rw [show List.foldl (fun acc q => acc.filter q) (xs.filter p) ps =
        applyFilters ps (xs.filter p) from rfl, ih, List.filter_filter]
    exact List.filter_congr (fun x _ => by simp [List.all_cons, Bool.and_comm])

theorem applyFilters_perm_invariant {α : Type} {ps qs : List (α → Bool)}
    (h : ps.Perm qs) (xs : List α) : applyFilters ps xs = applyFilters qs xs := by
  rw [applyFilters_eq_filter_all, applyFilters_eq_filter_all]
  exact List.filter_congr (fun x _ => all_of_perm h (fun p => p x))

theorem filter_idem {α : Type} (p : α → Bool) (l : List α) :
    (l.filter p).filter p = l.filter p := by
  induction l with
  | nil => rfl
  | cons a l ih => by_cases hp : p a <;> simp [List.filter_cons, hp, ih]

/-! ### Claim theorems -/

/-- C1: loadData throws exactly when the response is not ok or a required
column name is absent from the keys of the first parsed row (with no first
row, every key is absent); when it returns it returns the parsed table
itself, so the rows flagged by the numeric validation are still present in
the result. -/
theorem loadData_contract (respOk : Bool) (rows : List Row) :
    ((∃ e, loadData respOk rows = Except.error e) ↔
      (respOk = false ∨ ∃ f ∈ requiredFields, f ∉ headKeys rows))
    ∧ ∀ out, loadData respOk rows = Except.ok out →
        out = rows ∧ ∀ d ∈ invalidData rows, d ∈ out := by
  cases respOk with
  | false =>
    refine ⟨?_, ?_⟩
    · simp [loadData]
    · intro out hout
      simp [loadData] at hout
  | true =>
    cases rows with
    | nil =>
      refine ⟨?_, ?_⟩
      · simp only [loadData, headKeys]
        constructor
        · intro _
          exact Or.inr ⟨"Is24Hours", by simp [requiredFields], by simp⟩
        · intro _
          exact ⟨.emptyTypeError, rfl⟩
      · intro out hout
        simp [loadData] at hout
    | cons r rs =>
      have hmiss : ((requiredFields.filter (fun f => decide (f ∉ r.keys))).isEmpty = true) ↔
          ∀ f ∈ requiredFields, f ∈ r.keys := by
        rw [List.isEmpty_iff]
        constructor
        · intro h f hf
          by_contra hnot
          have hmem : f ∈ requiredFields.filter (fun f => decide (f ∉ r.keys)) :=
            List.mem_filter.mpr ⟨hf, by simpa using hnot⟩
          rw [h] at hmem
          simp at hmem
        · intro h
          apply List.filter_eq_nil_iff.mpr
          intro f hf
          simpa using h f hf
      by_cases h : (requiredFields.filter (fun f => decide (f ∉ r.keys))).isEmpty = true
      · refine ⟨?_, ?_⟩
        · simp only [loadData, Bool.not_true, Bool.false_eq_true, if_false, h, if_true]
          constructor
          · rintro ⟨e, he⟩
            exact absurd he (by simp)
          · rintro (hfalse | ⟨f, hf, hnot⟩)
            · exact absurd hfalse (by simp)
            · exact absurd (hmiss.mp h f hf) (by simpa [headKeys] using hnot)
        · intro out hout
          simp only [loadData, Bool.not_true, Bool.false_eq_true, if_false, h, if_true] at hout
          injection hout with h2
          subst h2
          exact ⟨rfl, fun d hd => List.mem_of_mem_filter hd⟩
      · refine ⟨?_, ?_⟩
        · simp only [loadData, Bool.not_true, Bool.false_eq_true, if_false, h, if_true]
          constructor
          · intro _
            have hne : requiredFields.filter (fun f => decide (f ∉ r.keys)) ≠ [] := by
              intro hnil
              exact h (by rw [hnil]; rfl)
            rcases List.exists_mem_of_ne_nil _ hne with ⟨f, hfmem⟩
            rcases List.mem_filter.mp hfmem with ⟨hf, hfp⟩
            exact Or.inr ⟨f, hf, by simpa [headKeys] using hfp⟩
          · intro _
            exact ⟨.missingFields _, rfl⟩
        · intro out hout
          simp only [loadData, Bool.not_true, Bool.false_eq_true, if_false, h, if_true] at hout
          exact absurd hout (by simp)

/-- A complete sample row used to instantiate the theorems. -/
def sampleRow : Row :=
  ⟨[("Charger Type", "L2"), ("Cost (USD/kWh)", "0.25"),
    ("Usage Stats (avg users/day)", "12"), ("Is24Hours", "True"),
    ("IsHighPower", "False"), ("Renewable Energy Source", "Yes"),
    ("Reviews (Rating)", "4.2"), ("Charging Capacity (kW)", "50"),
    ("Maintenance Frequency", "Monthly"), ("Station Operator", "EVgo"),
    ("Cost_Range", "0.2-0.3"), ("Installation Year", "2020")]⟩

/-- Witness for C1 at a concrete input: a failed fetch throws, and a
successful load of one complete row returns the table with its rows. -/
theorem loadData_contract_witness :
    (∃ e, loadData false [sampleRow] = Except.error e) ∧
      ([sampleRow] = [sampleRow] ∧ ∀ d ∈ invalidData [sampleRow], d ∈ [sampleRow]) :=
  ⟨(loadData_contract false [sampleRow]).1.mpr (Or.inl rfl),
   (loadData_contract true [sampleRow]).2 [sampleRow] (by rfl)⟩

/-- C2: the per-dimension predicates of the two processData functions can
be applied as successive filters in any order with the same result as the
combined filter, and applying the combined filter twice equals applying it
once. -/
theorem processData_filters_commute_idem (s : TUSel) (selType selAvail : String)
    (data : List Row) :
    (∀ ps : List (TURow → Bool), ps.Perm (tuDimPreds s) →
      applyFilters ps ((data.map tuMapRow).filter tuBase) = tuProcessData s data)
    ∧ (tuProcessData s data).filter (tuFilterPred s) = tuProcessData s data
    ∧ (∀ qs : List (CRRow → Bool), qs.Perm (crDimPreds selType selAvail) →
      applyFilters qs ((data.map crMapRow).filter crBase) =
        crProcessData selType selAvail data)
    ∧ (crProcessData selType selAvail data).filter (crFilterPred selType selAvail) =
        crProcessData selType selAvail data := by
  refine ⟨?_, ?_, ?_, ?_⟩
  · intro ps hps
    rw [applyFilters_perm_invariant hps, applyFilters_eq_filter_all,
      List.filter_filter]
    exact List.filter_congr (fun x _ => by
      simp [tuDimPreds, tuFilterPred, List.all_cons, Bool.and_assoc,
        Bool.and_comm, Bool.and_left_comm])
  · rw [tuProcessData, filter_idem]
  · intro qs hqs
    rw [applyFilters_perm_invariant hqs, applyFilters_eq_filter_all,
      List.filter_filter]
    exact List.filter_congr (fun x _ => by
      simp [crDimPreds, crFilterPred, List.all_cons, Bool.and_assoc,
        Bool.and_comm, Bool.and_left_comm])
  · rw [crProcessData, filter_idem]

/-- Witness for C2 at a concrete input: swapping the first two dimension
filters of each chart leaves the result unchanged on a one-row table. -/
theorem processData_filters_commute_idem_witness :
    applyFilters
        [tuPowerPred "all", tuTypePred "all", tuCostPred "medium",
         tuRenewPred "yes", tuRangePred "medium"]
        (([sampleRow].map tuMapRow).filter tuBase) =
      tuProcessData ⟨"all", "all", "medium", "yes", "medium"⟩ [sampleRow]
    ∧ applyFilters [crAvailPred "24h", crTypePred "L2"]
        (([sampleRow].map crMapRow).filter crBase) =
      crProcessData "L2" "24h" [sampleRow] :=
  ⟨(processData_filters_commute_idem ⟨"all", "all", "medium", "yes", "medium"⟩
      "L2" "24h" [sampleRow]).1
      [tuPowerPred "all", tuTypePred "all", tuCostPred "medium",
       tuRenewPred "yes", tuRangePred "medium"]
      (List.Perm.swap _ _ _),
   ((processData_filters_commute_idem ⟨"all", "all", "medium", "yes", "medium"⟩
      "L2" "24h" [sampleRow]).2.2.1
      [crAvailPred "24h", crTypePred "L2"]
      (List.Perm.swap _ _ _))⟩

/-- C3: under any selection whose filtered set is empty, the cost-rating
updateChart replaces the container with the no-data message and returns
before computing any statistic; the type-usage updateChart carries a
statistics block exactly when its filtered set is non-empty; and the
boxplot statistics rollup of an empty prepared set is empty, so no NaN
aggregate is displayed. -/
theorem empty_filter_no_nan_stats :
    (∀ (selType selAvail : String) (data : List Row),
      crProcessData selType selAvail data = [] →
        crUpdateChart selType selAvail data =
          CRDisplay.noData "No data available for selected filters")
    ∧ (∀ (s : TUSel) (data : List Row),
        ((tuUpdateChart s data).stats.isSome = true ↔ tuProcessData s data ≠ []))
    ∧ (∀ (f : BPFeature) (data : List Row), bpProcessData f data = [] →
        bpStats (bpProcessData f data) = []) := by
  refine ⟨?_, ?_, ?_⟩
  · intro selType selAvail data h
    simp [crUpdateChart, h]
  · intro s data
    by_cases h : tuProcessData s data = []
    · simp [tuUpdateChart, h]
    · have hlen : 0 < (tuProcessData s data).length := List.length_pos.mpr h
      simp [tuUpdateChart, hlen, h]
  · intro f data h
    rw [h]
    rfl

/-- Witness for C3 at a concrete input: on the empty table every filtered
set is empty, the cost-rating chart shows the no-data message, and the
boxplot statistics are empty. -/
theorem empty_filter_no_nan_stats_witness :
    crUpdateChart "all" "all" [] =
      CRDisplay.noData "No data available for selected filters"
    ∧ bpStats (bpProcessData bpMaintFeature []) = [] :=
  ⟨empty_filter_no_nan_stats.1 "all" "all" [] rfl,
   empty_filter_no_nan_stats.2.2 bpMaintFeature [] rfl⟩

/-- C4: every record reaching an aggregation has its aggregated fields
parsed to valid numbers: the type-usage pipeline keeps only valid usage,
the cost-rating pipeline only valid cost and rating, the boxplot pipeline
only valid values, the operator pipeline only valid rating, usage and
capacity, and the maintenance transform yields a number on every input. -/
theorem aggregations_only_over_valid_numbers (s : TUSel) (selType selAvail : String)
    (f : BPFeature) (data : List Row) :
    ((tuProcessData s data).all (fun d => !jIsNaN d.usage)) = true
    ∧ ((crProcessData selType selAvail data).all
        (fun d => !jIsNaN d.cost && !jIsNaN d.rating)) = true
    ∧ ((bpProcessData f data).all (fun d => !jIsNaN d.value)) = true
    ∧ ((opProcessData data).all
        (fun d => !jIsNaN d.rating && !jIsNaN d.usage && !jIsNaN d.capacity)) = true
    ∧ (∀ d : Row, jIsNaN ((bpMapRow bpMaintFeature d).value) = false) := by
  refine ⟨?_, ?_, ?_, ?_, fun d => rfl⟩
  · rw [List.all_eq_true]
    intro x hx
    have hf := (List.mem_filter.mp hx).2
    simp only [tuFilterPred, Bool.and_eq_true] at hf
    have hb := hf.1.1.1.1.1
    simp only [tuBase, Bool.not_eq_true', Bool.or_eq_false_iff] at hb
    simp [hb.1]
  · rw [List.all_eq_true]
    intro x hx
    have hf := (List.mem_filter.mp hx).2
    simp only [crFilterPred, Bool.and_eq_true] at hf
    have hb := hf.1.1
    simp only [crBase, Bool.not_eq_true', Bool.or_eq_false_iff] at hb
    simp [hb.1.1.1, hb.1.1.2]
  · rw [List.all_eq_true]
    intro x hx
    exact (List.mem_filter.mp hx).2
  · rw [List.all_eq_true]
    intro x hx
    exact (List.mem_filter.mp hx).2

/-- C5: in the map, each known charger type has its fixed marker color and
everything else falls back to the default; in the Vega-Lite scale
configuration, each domain value has its listed color and out-of-domain
values receive the default. -/
theorem categorical_colors_total (t dflt v : String) :
    markerColor (some "L1") = "#FF6B6B"
    ∧ markerColor (some "L2") = "#4ECDC4"
    ∧ markerColor (some "DC") = "#45B7D1"
    ∧ markerColor none = "#999"
    ∧ (t ∉ ["L1", "L2", "DC"] → markerColor (some t) = "#999")
    ∧ ordinalColor vegaColorDomain vegaColorRange dflt "L1" = "#91bad6"
    ∧ ordinalColor vegaColorDomain vegaColorRange dflt "L2" = "#528AAE"
    ∧ ordinalColor vegaColorDomain vegaColorRange dflt "DC" = "#1E3f66"
    ∧ (v ∉ ["L1", "L2", "DC"] →
        ordinalColor vegaColorDomain vegaColorRange dflt v = dflt) := by
  refine ⟨rfl, rfl, rfl, rfl, ?_, rfl, rfl, rfl, ?_⟩
  · intro h
    simp only [List.mem_cons, List.not_mem_nil, or_false, not_or] at h
    obtain ⟨h1, h2, h3⟩ := h
    simp [markerColor, markerColorMap, lookupStr, h1, h2, h3]
  · intro h
    simp only [List.mem_cons, List.not_mem_nil, or_false, not_or] at h
    obtain ⟨h1, h2, h3⟩ := h
    simp [ordinalColor, vegaColorDomain, vegaColorRange, h1, h2, h3]

/-- Witness for C5 at a concrete input: the unmapped value Unknown gets
the fallback marker color and the scale default. -/
theorem categorical_colors_total_witness :
    markerColor (some "Unknown") = "#999"
    ∧ ordinalColor vegaColorDomain vegaColorRange "#888" "Unknown" = "#888" :=
  ⟨(categorical_colors_total "Unknown" "#888" "Unknown").2.2.2.2.1 (by decide),
   (categorical_colors_total "Unknown" "#888" "Unknown").2.2.2.2.2.2.2.2 (by decide)⟩

theorem runChart_of_present {present : List String} {fails : Chart → Bool} {c : Chart}
    (hc : containerId c ∈ present) :
    runChart present fails c = ⟨[containerId c], false⟩ := by
  unfold runChart
  by_cases hf : fails c <;> simp [hf, hc]

theorem runChart_of_absent {present : List String} {fails : Chart → Bool} {c : Chart}
    (hc : containerId c ∉ present) :
    runChart present fails c = ⟨[], true⟩ := by
  unfold runChart
  simp [hc]

theorem runSeq_indexIds (fs : Chart → Bool) :
    runSeq indexIds fs chartOrder =
      [(Chart.map, ⟨["map-viz"], false⟩), (Chart.trend, ⟨["trend-viz"], false⟩),
       (Chart.heatmap, ⟨["heatmap-viz"], false⟩),
       (Chart.costRating, ⟨["cost-rating-viz"], false⟩),
       (Chart.typeUsage, ⟨["type-usage-viz"], false⟩),
       (Chart.boxplot, ⟨["boxplot-viz"], false⟩),
       (Chart.operator, ⟨[], true⟩)] := by
  have h1 : runChart indexIds fs Chart.map = ⟨["map-viz"], false⟩ :=
    runChart_of_present (by decide)
  have h2 : runChart indexIds fs Chart.trend = ⟨["trend-viz"], false⟩ :=
    runChart_of_present (by decide)
  have h3 : runChart indexIds fs Chart.heatmap = ⟨["heatmap-viz"], false⟩ :=
    runChart_of_present (by decide)
  have h4 : runChart indexIds fs Chart.costRating = ⟨["cost-rating-viz"], false⟩ :=
    runChart_of_present (by decide)
  have h5 : runChart indexIds fs Chart.typeUsage = ⟨["type-usage-viz"], false⟩ :=
    runChart_of_present (by decide)
  have h6 : runChart indexIds fs Chart.boxplot = ⟨["boxplot-viz"], false⟩ :=
    runChart_of_present (by decide)
  have h7 : runChart indexIds fs Chart.operator = ⟨[], true⟩ :=
    runChart_of_absent (by decide)
  simp [chartOrder, runSeq, h1, h2, h3, h4, h5, h6, h7]

/-- C6 counterexample: on the shipped page (the element ids of
index.html, which lack operator-viz) the render pass of
createOperatorAnalysis fails, the error escapes its catch block, and no
inline error message is written anywhere — refuting the claim that each
chart-creation function catches its own errors and replaces its own
container content. -/
theorem chart_error_isolation_cex :
    (runChart indexIds (fun _ => false) Chart.operator).escaped = true
    ∧ (runChart indexIds (fun _ => false) Chart.operator).writes = [] := by
  refine ⟨?_, ?_⟩ <;> rfl

/-- C6 amended: a chart function whose container id exists on the page
catches every body failure and replaces only its own container content;
on the shipped index.html every chart function is still invoked for any
failure pattern (createOperatorAnalysis, the only one whose container is
missing, is invoked last, and its escaping error is caught by
initialize), and every write of the run goes to the own container of the
writing chart. -/
theorem chart_error_isolation_amended (present : List String) (fails : Chart → Bool)
    (c : Chart) (hc : containerId c ∈ present) :
    ((runChart present fails c).escaped = false
      ∧ (runChart present fails c).writes = [containerId c])
    ∧ (∀ fs : Chart → Bool, (runSeq indexIds fs chartOrder).map Prod.fst = chartOrder)
    ∧ (∀ (fs : Chart → Bool) (pr : Chart × ChartRun),
        pr ∈ runSeq indexIds fs chartOrder →
          ∀ id ∈ pr.2.writes, id = containerId pr.1) := by
  refine ⟨?_, ?_, ?_⟩
  · rw [runChart_of_present hc]
    exact ⟨rfl, rfl⟩
  · intro fs
    rw [runSeq_indexIds fs]
    rfl
  · intro fs pr hpr
    rw [runSeq_indexIds fs] at hpr
    revert hpr
    revert pr
    decide

/-- Witness for the amended C6 at a concrete input: even when its body
fails, createMap on the shipped page does not leak its error and writes
only its own container. -/
theorem chart_error_isolation_amended_witness :
    (runChart indexIds (fun _ => true) Chart.map).escaped = false
    ∧ (runChart indexIds (fun _ => true) Chart.map).writes = ["map-viz"] :=
  (chart_error_isolation_amended indexIds (fun _ => true) Chart.map (by decide)).1

/-- Tests whether an event is a chart render. -/
def isRenderEv : Ev → Bool
  | .render _ => true
  | _ => false

/-- C7 counterexample: createMap performs no CSV fetch of its own (it is
handed the table fetched by initialize), refuting one asynchronous CSV
fetch per chart initialization. -/
theorem one_csv_fetch_per_chart_cex :
    chartCSVFetches Chart.map = 0 ∧ ¬ (∀ c : Chart, chartCSVFetches c = 1) := by
  refine ⟨rfl, ?_⟩
  intro h
  exact absurd (h Chart.map) (by decide)

/-- C7 amended: the CSV is fetched exactly twice during initialization —
once by initialize itself, whose awaited table is shared by the other
charts, and once inside loadTrendChart; every chart render event in the
initialize trace is preceded by a completed CSV fetch. -/
theorem csv_fetch_schedule (c : Chart) (hc : c ≠ Chart.trend) :
    initTrace.count Ev.fetchCSV = 2
    ∧ chartCSVFetches Chart.trend = 1
    ∧ chartCSVFetches c = 0
    ∧ (∀ i : Fin initTrace.length, isRenderEv (initTrace.get i) = true →
        ∃ j : Fin initTrace.length, j.val < i.val ∧ initTrace.get j = Ev.fetchCSV) := by
  refine ⟨by decide, rfl, ?_, by decide⟩
  cases c <;> simp_all [chartCSVFetches]

/-- Witness for the amended C7 at a concrete input: two CSV fetches in
the trace, one inside loadTrendChart, none inside createMap. -/
theorem csv_fetch_schedule_witness :
    initTrace.count Ev.fetchCSV = 2
    ∧ chartCSVFetches Chart.trend = 1
    ∧ chartCSVFetches Chart.map = 0 :=
  ⟨(csv_fetch_schedule Chart.map (by decide)).1,
   (csv_fetch_schedule Chart.map (by decide)).2.1,
   (csv_fetch_schedule Chart.map (by decide)).2.2.1⟩

theorem step_table (st : DashState) (e : UIEvent) : (step st e).table = st.table := by
  cases e with
  | trendFilter sel => rfl
  | tuFilter s => rfl
  | crFilter selType selAvail => rfl
  | bpFeature sel =>
    unfold step
    cases hfind : bpFindFeature sel <;> simp [hfind]

/-- C8: the stored table survives any sequence of filter interactions
unchanged, and every processed record handed to a chart is a fresh
projection (via map and filter) of some record of the loaded table. -/
theorem records_immutable (st : DashState) (evs : List UIEvent) (s : TUSel)
    (selType selAvail : String) (f : BPFeature) (data : List Row) :
    (evs.foldl step st).table = st.table
    ∧ (∀ x ∈ tuProcessData s data, ∃ r ∈ data, x = tuMapRow r)
    ∧ (∀ x ∈ crProcessData selType selAvail data, ∃ r ∈ data, x = crMapRow r)
    ∧ (∀ x ∈ bpProcessData f data, ∃ r ∈ data, x = bpMapRow f r)
    ∧ (∀ x ∈ opProcessData data, ∃ r ∈ data, x = opMapRow r) := by
  refine ⟨?_, ?_, ?_, ?_, ?_⟩
  · induction evs generalizing st with
    | nil => rfl
    | cons e evs ih => rw [List.foldl_cons, ih, step_table]
  · intro x hx
    rcases List.mem_map.mp (List.mem_of_mem_filter hx) with ⟨r, hr, hxr⟩
    exact ⟨r, hr, hxr.symm⟩
  · intro x hx
    rcases List.mem_map.mp (List.mem_of_mem_filter hx) with ⟨r, hr, hxr⟩
    exact ⟨r, hr, hxr.symm⟩
  · intro x hx
    rcases List.mem_map.mp (List.mem_of_mem_filter hx) with ⟨r, hr, hxr⟩
    exact ⟨r, hr, hxr.symm⟩
  · intro x hx
    rcases List.mem_map.mp (List.mem_of_mem_filter hx) with ⟨r, hr, hxr⟩
    exact ⟨r, hr, hxr.symm⟩

/-- Witness for C8 at a concrete input: after a type-usage filter change
on a one-row table the stored table is unchanged, and the one processed
record is the projection of the loaded row. -/
theorem records_immutable_witness :
    (([UIEvent.tuFilter (TUSel.mk "all" "all" "all" "all" "all")].foldl step
        (DashState.mk [sampleRow] [] [] [] [])).table = [sampleRow])
    ∧ ∃ r ∈ [sampleRow], tuMapRow sampleRow = tuMapRow r :=
  ⟨(records_immutable (DashState.mk [sampleRow] [] [] [] [])
      [UIEvent.tuFilter (TUSel.mk "all" "all" "all" "all" "all")]
      (TUSel.mk "all" "all" "all" "all" "all") "all" "all" bpMaintFeature [sampleRow]).1,
   (records_immutable (DashState.mk [sampleRow] [] [] [] [])
      [UIEvent.tuFilter (TUSel.mk "all" "all" "all" "all" "all")]
      (TUSel.mk "all" "all" "all" "all" "all") "all" "all" bpMaintFeature [sampleRow]).2.1
      (tuMapRow sampleRow)
      (List.mem_filter.mpr ⟨List.mem_map.mpr ⟨sampleRow, List.mem_singleton.mpr rfl, rfl⟩,
        by decide⟩)⟩

/-- C9: a record whose Is24Hours cell is neither the string True nor the
string False is excluded by the limited (and the 24/7) selection of the
trend chart but included by the limited availability predicate of the
cost-rating chart, so the two charts classify it under opposite
availability categories and the trend chart selections 24/7 and limited
together do not cover the all selection. -/
theorem availability_classification_divergence (d : Row)
    (h1 : d.get "Is24Hours" ≠ some "True") (h2 : d.get "Is24Hours" ≠ some "False") :
    trendPred "limited" d = false
    ∧ trendPred "24/7" d = false
    ∧ trendPred "all" d = true
    ∧ crAvailPred "limited" (crMapRow d) = true
    ∧ (∀ data : List Row, d ∈ data →
        d ∈ trendFilteredData "all" data
        ∧ d ∉ trendFilteredData "24/7" data
        ∧ d ∉ trendFilteredData "limited" data) := by
  have ht : trendPred "limited" d = false := by
    show decide (d.get "Is24Hours" = some "False") = false
    exact decide_eq_false h2
  have ht24 : trendPred "24/7" d = false := by
    show decide (d.get "Is24Hours" = some "True") = false
    exact decide_eq_false h1
  refine ⟨ht, ht24, rfl, ?_, ?_⟩
  · simp [crAvailPred, crMapRow, h1]
  · intro data hd
    refine ⟨List.mem_filter.mpr ⟨hd, rfl⟩, ?_, ?_⟩
    · intro hmem
      have := (List.mem_filter.mp hmem).2
      rw [ht24] at this
      exact absurd this (by simp)
    · intro hmem
      have := (List.mem_filter.mp hmem).2
      rw [ht] at this
      exact absurd this (by simp)

/-- A row whose Is24Hours cell is neither True nor False. -/
def unknownHoursRow : Row :=
  ⟨[("Is24Hours", "Unknown"), ("Charger Type", "L1"),
    ("Cost (USD/kWh)", "0.20"), ("Reviews (Rating)", "4.0")]⟩

/-- Witness for C9 at a concrete input: a row with Is24Hours Unknown. -/
theorem availability_classification_divergence_witness :
    trendPred "limited" unknownHoursRow = false
    ∧ trendPred "24/7" unknownHoursRow = false
    ∧ trendPred "all" unknownHoursRow = true
    ∧ crAvailPred "limited" (crMapRow unknownHoursRow) = true :=
  ⟨(availability_classification_divergence unknownHoursRow (by decide) (by decide)).1,
   (availability_classification_divergence unknownHoursRow (by decide) (by decide)).2.1,
   (availability_classification_divergence unknownHoursRow (by decide) (by decide)).2.2.1,
   (availability_classification_divergence unknownHoursRow (by decide) (by decide)).2.2.2.1⟩

/-- A row passing the base usage check whose cost cell does not parse to
a number. -/
def nanCostRow : Row :=
  ⟨[("Charger Type", "L2"), ("Cost (USD/kWh)", "abc"),
    ("Usage Stats (avg users/day)", "5"), ("Is24Hours", "True")]⟩

/-- C10 counterexample: a record with unparseable cost passes the base
validity check and is accepted by all three cost-range selections at
once, refuting that every base-valid record is accepted by exactly one
selection of the cost dimension. -/
theorem usage_cost_partition_cex :
    (tuBase (tuMapRow nanCostRow) = true
      ∧ tuCostPred "low" (tuMapRow nanCostRow) = true
      ∧ tuCostPred "medium" (tuMapRow nanCostRow) = true
      ∧ tuCostPred "high" (tuMapRow nanCostRow) = true)
    ∧ ¬ (∀ d : TURow, tuBase d = true →
          ¬ (tuCostPred "low" d = true ∧ tuCostPred "medium" d = true)) := by
  refine ⟨⟨by decide, by decide, by decide, by decide⟩, ?_⟩
  intro h
  exact h (tuMapRow nanCostRow) (by decide) ⟨by decide, by decide⟩

theorem bool_eq_false_of_not {b : Bool} (h : ¬ b = true) : b = false := by
  cases b
  · rfl
  · exact absurd rfl h

theorem tuRange_eval (d : TURow) (u : ℚ) (hu : d.usage = some u) :
    (tuRangePred "low" d = true ↔ u ≤ 10)
    ∧ (tuRangePred "medium" d = true ↔ 10 < u ∧ u ≤ 20)
    ∧ (tuRangePred "high" d = true ↔ 20 < u) := by
  refine ⟨?_, ?_, ?_⟩ <;> simp [tuRangePred, jle, jgt, hu]

theorem tuCost_eval (d : TURow) (c : ℚ) (hc : d.cost = some c) :
    (tuCostPred "low" d = true ↔ c < dec 15 2)
    ∧ (tuCostPred "medium" d = true ↔ dec 15 2 ≤ c ∧ c ≤ dec 30 2)
    ∧ (tuCostPred "high" d = true ↔ dec 30 2 < c) := by
  refine ⟨?_, ?_, ?_⟩
  · by_cases h : dec 15 2 ≤ c
    · simp [tuCostPred, jge, hc, h, not_lt.mpr h]
    · simp [tuCostPred, jge, hc, h, not_le.mp h]
  · by_cases h1 : c < dec 15 2
    · simp [tuCostPred, jge, jlt, jgt, hc, h1, not_le.mpr h1]
    · by_cases h2 : dec 30 2 < c
      · simp [tuCostPred, jge, jlt, jgt, hc, h1, h2, not_le.mpr h2]
      · simp [tuCostPred, jge, jlt, jgt, hc, h1, h2, not_lt.mp h1, not_lt.mp h2]
  · by_cases h : c ≤ dec 30 2
    · simp [tuCostPred, jge, jlt, jgt, jle, hc, h, not_lt.mpr h]
    · simp [tuCostPred, jge, jlt, jgt, jle, hc, h, not_le.mp h]

theorem tuCost_nan_eval (d : TURow) (hc : d.cost = none) :
    tuCostPred "low" d = true ∧ tuCostPred "medium" d = true
      ∧ tuCostPred "high" d = true := by
  refine ⟨?_, ?_, ?_⟩ <;> simp [tuCostPred, jge, jlt, jgt, jle, hc]

theorem tu_mem_parts {s : TUSel} {data : List Row} {x : TURow}
    (hx : x ∈ tuProcessData s data) : tuBase x = true := by
  have hp := (List.mem_filter.mp hx).2
  simp only [tuFilterPred, Bool.and_eq_true] at hp
  exact hp.1.1.1.1.1

theorem tu_mem_cost_swap {s : TUSel} {data : List Row} {x : TURow} {sel sel2 : String}
    (hx : x ∈ tuProcessData { s with cost := sel } data)
    (hnew : tuCostPred sel2 x = true) :
    x ∈ tuProcessData { s with cost := sel2 } data := by
  rcases List.mem_filter.mp hx with ⟨hm, hp⟩
  refine List.mem_filter.mpr ⟨hm, ?_⟩
  simp only [tuFilterPred, Bool.and_eq_true] at hp ⊢
  exact ⟨⟨⟨hp.1.1.1, hnew⟩, hp.1.2⟩, hp.2⟩

theorem tu_mem_range_swap {s : TUSel} {data : List Row} {x : TURow} {sel sel2 : String}
    (hx : x ∈ tuProcessData { s with range := sel } data)
    (hnew : tuRangePred sel2 x = true) :
    x ∈ tuProcessData { s with range := sel2 } data := by
  rcases List.mem_filter.mp hx with ⟨hm, hp⟩
  refine List.mem_filter.mpr ⟨hm, ?_⟩
  simp only [tuFilterPred, Bool.and_eq_true] at hp ⊢
  exact ⟨hp.1, hnew⟩

/-- C10 amended: the three usage-range selections partition the
base-valid records; the three cost-range selections partition the
base-valid records whose cost parsed to a valid number, while a record
with NaN cost is accepted by all three cost selections at once; and for
each of the two dimensions the union of the three result sets still
equals the all result set. -/
theorem usage_cost_partition_amended (d : TURow) (hb : tuBase d = true) :
    ((tuRangePred "low" d = true ∧ tuRangePred "medium" d = false
        ∧ tuRangePred "high" d = false)
      ∨ (tuRangePred "low" d = false ∧ tuRangePred "medium" d = true
        ∧ tuRangePred "high" d = false)
      ∨ (tuRangePred "low" d = false ∧ tuRangePred "medium" d = false
        ∧ tuRangePred "high" d = true))
    ∧ (∀ c : ℚ, d.cost = some c →
        ((tuCostPred "low" d = true ∧ tuCostPred "medium" d = false
            ∧ tuCostPred "high" d = false)
          ∨ (tuCostPred "low" d = false ∧ tuCostPred "medium" d = true
            ∧ tuCostPred "high" d = false)
          ∨ (tuCostPred "low" d = false ∧ tuCostPred "medium" d = false
            ∧ tuCostPred "high" d = true)))
    ∧ (d.cost = none →
        tuCostPred "low" d = true ∧ tuCostPred "medium" d = true
          ∧ tuCostPred "high" d = true)
    ∧ (∀ (s : TUSel) (data : List Row) (x : TURow),
        ((x ∈ tuProcessData { s with cost := "low" } data
            ∨ x ∈ tuProcessData { s with cost := "medium" } data
            ∨ x ∈ tuProcessData { s with cost := "high" } data)
          ↔ x ∈ tuProcessData { s with cost := "all" } data)
        ∧ ((x ∈ tuProcessData { s with range := "low" } data
            ∨ x ∈ tuProcessData { s with range := "medium" } data
            ∨ x ∈ tuProcessData { s with range := "high" } data)
          ↔ x ∈ tuProcessData { s with range := "all" } data)) := by
  refine ⟨?_, ?_, tuCost_nan_eval d, ?_⟩
  · obtain ⟨u, hu⟩ : ∃ u, d.usage = some u := by
      cases hcase : d.usage with
      | none => rw [tuBase, hcase] at hb; simp [jIsNaN] at hb
      | some u => exact ⟨u, rfl⟩
    obtain ⟨hl, hm, hh⟩ := tuRange_eval d u hu
    rcases le_or_lt u 10 with h10 | h10
    · exact Or.inl ⟨hl.mpr h10,
        bool_eq_false_of_not (fun hx => by rcases hm.mp hx with ⟨h1, _⟩; linarith),
        bool_eq_false_of_not (fun hx => by have := hh.mp hx; linarith)⟩
    · rcases le_or_lt u 20 with h20 | h20
      · exact Or.inr (Or.inl ⟨
          bool_eq_false_of_not (fun hx => by have := hl.mp hx; linarith),
          hm.mpr ⟨h10, h20⟩,
          bool_eq_false_of_not (fun hx => by have := hh.mp hx; linarith)⟩)
      · exact Or.inr (Or.inr ⟨
          bool_eq_false_of_not (fun hx => by have := hl.mp hx; linarith),
          bool_eq_false_of_not (fun hx => by rcases hm.mp hx with ⟨_, h2⟩; linarith),
          hh.mpr h20⟩)
  · intro c hc
    obtain ⟨hl, hm, hh⟩ := tuCost_eval d c hc
    rcases lt_or_le c (dec 15 2) with h15 | h15
    · exact Or.inl ⟨hl.mpr h15,
        bool_eq_false_of_not (fun hx => by rcases hm.mp hx with ⟨h1, _⟩; linarith),
        bool_eq_false_of_not (fun hx => by
          have := hh.mp hx
          have hd1530 : (dec 15 2 : ℚ) ≤ dec 30 2 := by decide
          linarith)⟩
    · rcases le_or_lt c (dec 30 2) with h30 | h30
      · exact Or.inr (Or.inl ⟨
          bool_eq_false_of_not (fun hx => by have := hl.mp hx; linarith),
          hm.mpr ⟨h15, h30⟩,
          bool_eq_false_of_not (fun hx => by have := hh.mp hx; linarith)⟩)
      · exact Or.inr (Or.inr ⟨
          bool_eq_false_of_not (fun hx => by
            have := hl.mp hx
            have hd1530 : (dec 15 2 : ℚ) ≤ dec 30 2 := by decide
            linarith),
          bool_eq_false_of_not (fun hx => by rcases hm.mp hx with ⟨_, h2⟩; linarith),
          hh.mpr h30⟩)
  · intro s data x
    constructor
    · constructor
      · rintro (hx | hx | hx) <;> exact tu_mem_cost_swap hx rfl
      · intro hx
        cases hcase : x.cost with
        | none => exact Or.inl (tu_mem_cost_swap hx (tuCost_nan_eval x hcase).1)
        | some c =>
          obtain ⟨hl, hm, hh⟩ := tuCost_eval x c hcase
          by_cases h15 : dec 15 2 ≤ c
          · by_cases h30 : dec 30 2 < c
            · exact Or.inr (Or.inr (tu_mem_cost_swap hx (hh.mpr h30)))
            · exact Or.inr (Or.inl (tu_mem_cost_swap hx
                (hm.mpr ⟨h15, le_of_not_lt h30⟩)))
          · exact Or.inl (tu_mem_cost_swap hx (hl.mpr (not_le.mp h15)))
    · constructor
      · rintro (hx | hx | hx) <;> exact tu_mem_range_swap hx rfl
      · intro hx
        have hbase := tu_mem_parts hx
        obtain ⟨u, hu⟩ : ∃ u, x.usage = some u := by
          cases hcase : x.usage with
          | none => rw [tuBase, hcase] at hbase; simp [jIsNaN] at hbase
          | some u => exact ⟨u, rfl⟩
        obtain ⟨hl, hm, hh⟩ := tuRange_eval x u hu
        rcases le_or_lt u 10 with h10 | h10
        · exact Or.inl (tu_mem_range_swap hx (hl.mpr h10))
        · rcases le_or_lt u 20 with h20 | h20
          · exact Or.inr (Or.inl (tu_mem_range_swap hx (hm.mpr ⟨h10, h20⟩)))
          · exact Or.inr (Or.inr (tu_mem_range_swap hx (hh.mpr h20)))

/-- Witness for the amended C10 at a concrete input: a row with cost 0.25
is accepted by exactly the medium cost selection. -/
theorem usage_cost_partition_amended_witness :
    (tuCostPred "low" (tuMapRow sampleRow) = true
        ∧ tuCostPred "medium" (tuMapRow sampleRow) = false
        ∧ tuCostPred "high" (tuMapRow sampleRow) = false)
      ∨ (tuCostPred "low" (tuMapRow sampleRow) = false
        ∧ tuCostPred "medium" (tuMapRow sampleRow) = true
        ∧ tuCostPred "high" (tuMapRow sampleRow) = false)
      ∨ (tuCostPred "low" (tuMapRow sampleRow) = false
        ∧ tuCostPred "medium" (tuMapRow sampleRow) = false
        ∧ tuCostPred "high" (tuMapRow sampleRow) = true) :=
  (usage_cost_partition_amended (tuMapRow sampleRow) (by decide)).2.1 (dec 25 2) (by decide)

end EVDash
